import Mathlib

/-!
Verification of the streaming-connection core of `mcp_polygon`
(`src/mcp_polygon/tools/websockets/connection_manager.py`).

The Python classes `WebSocketConnection` and `ConnectionManager` are embedded
shallowly: each method becomes a pure Lean function on an explicit connection
record.  Inbound websocket traffic is represented by lists of parsed frames;
`self.websocket` is tracked by the boolean `websocket_set` (whether the
attribute is non-None); the background `_receive_task` is tracked by a count
of running receive loops so the single-loop invariant can be stated.  Message
handlers are passed to the receive loop explicitly (in Python they live in
`self.message_handlers`); a handler returning `some e` models the handler
raising exception `e`.
-/

namespace MCPPolygon

/-- The apostrophe character, built from its code point. -/
def apos : String := String.mk [Char.ofNat 39]

/-- A parsed protocol message.  Python messages are JSON dicts; the receive
loop and authentication only inspect the keys `ev`, `status` and `message`
(`none` models an absent key).  `payload` is an opaque tag standing for the
rest of a data message's content. -/
structure Msg where
  ev : Option String
  status : Option String
  message : Option String
  payload : Nat
deriving DecidableEq, Repr

/-- `msg.get("ev") == "status"`: the branch taken by `_receive_messages`. -/
def isStatusMsg (m : Msg) : Bool := m.ev == some "status"

/-- One inbound transport frame as seen by `_receive_messages` after
`json.loads`: `invalid` models a `json.JSONDecodeError`, `nonArray` a parsed
value that is not a list (logged and dropped), `array` a list of messages. -/
inductive Frame where
  | invalid
  | nonArray
  | array (msgs : List Msg)
deriving DecidableEq, Repr

/-- `ConnectionState` (connection_manager.py lines 29-36). -/
inductive ConnectionState where
  | disconnected
  | connecting
  | authenticating
  | connected
  | error
deriving DecidableEq, Repr

/-- `ConnectionState.value`: the string carried by each enum member. -/
def ConnectionState.value : ConnectionState → String
  | .disconnected => "disconnected"
  | .connecting => "connecting"
  | .authenticating => "authenticating"
  | .connected => "connected"
  | .error => "error"

/-- The mutable state of a `WebSocketConnection` (lines 49-70).
`websocket_set` is `self.websocket is not None`; `active_receive_tasks`
counts running `_receive_messages` tasks (at most one in the real program;
keeping a count lets the single-loop invariant be proved rather than
assumed). -/
structure WebSocketConnection where
  market : String
  endpoint : String
  api_key : String
  websocket_set : Bool
  state : ConnectionState
  subscriptions : Finset String
  reconnect_attempts : Nat
  max_reconnect_delay : Nat
  message_buffer : List Msg
  buffer_maxlen : Nat
  total_messages_received : Nat
  last_error : Option String
  active_receive_tasks : Nat
deriving DecidableEq

/-- `WebSocketConnection.__init__` (lines 49-70): buffer is a
`deque(maxlen=100)`, `max_reconnect_delay = 30`, all counters zero. -/
def WebSocketConnection.init (market endpoint api_key : String) : WebSocketConnection :=
  { market := market
    endpoint := endpoint
    api_key := api_key
    websocket_set := false
    state := .disconnected
    subscriptions := ∅
    reconnect_attempts := 0
    max_reconnect_delay := 30
    message_buffer := []
    buffer_maxlen := 100
    total_messages_received := 0
    last_error := none
    active_receive_tasks := 0 }

/-- The last `n` elements of a list (what survives in a bounded deque). -/
def takeLast (n : Nat) (xs : List α) : List α := xs.drop (xs.length - n)

/-- `deque.append` on a deque with `maxlen`: append, then discard from the
front down to `maxlen` elements. -/
def dequeAppend (maxlen : Nat) (buf : List Msg) (m : Msg) : List Msg :=
  let b := buf ++ [m]
  if maxlen < b.length then b.drop (b.length - maxlen) else b

/-- The dict returned by `get_message_stats` (lines 328-339). -/
structure MessageStats where
  total_received : Nat
  buffered : Nat
  buffer_capacity : Nat
deriving DecidableEq, Repr

/-- `get_message_stats` (lines 328-339). -/
def get_message_stats (c : WebSocketConnection) : MessageStats :=
  { total_received := c.total_messages_received
    buffered := c.message_buffer.length
    buffer_capacity := c.buffer_maxlen }

/-- `get_recent_messages` (lines 315-326):
`limit = min(limit, len(buffer)); return list(buffer)[-limit:] if limit > 0 else []`. -/
def get_recent_messages (c : WebSocketConnection) (limit : Nat) : List Msg :=
  let l := min limit c.message_buffer.length
  if 0 < l then takeLast l c.message_buffer else []

/-- `clear_message_buffer` (lines 341-343). -/
def clear_message_buffer (c : WebSocketConnection) : WebSocketConnection :=
  { c with message_buffer := [] }

/-- The entitlement-limitation phrase `_handle_status` looks for inside the
status message text (line 247). -/
def accessPhrase : String := "don" ++ apos ++ "t have access"

/-- `needle` occurs as a contiguous run inside the character list. -/
def infixOfChars (needle : List Char) : List Char → Bool
  | [] => needle.isEmpty
  | c :: rest => needle.isPrefixOf (c :: rest) || infixOfChars needle rest

/-- `phrase in message` (Python substring test) on the underlying characters. -/
def containsPhrase (phrase s : String) : Bool := infixOfChars phrase.data s.data

/-- `str(e)` for the `APIAccessError` raised at lines 248-254 of
`_handle_status` (the f-string, with `message` and `market` spliced in). -/
def apiAccessErrorText (market message : String) : String :=
  "API Plan Limitation: " ++ message ++ String.mk [Char.ofNat 10, Char.ofNat 10] ++
  "Your plan includes 15-minute delayed data. To access real-time data:" ++
  String.mk [Char.ofNat 10] ++
  "1. Upgrade at https://polygon.io/pricing" ++ String.mk [Char.ofNat 10] ++
  "2. Or use delayed endpoint: wss://delayed.polygon.io/" ++ market ++
  String.mk [Char.ofNat 10, Char.ofNat 10] ++
  "Note: Delayed endpoint is automatically used based on your API key."

/-- `_handle_status` (lines 241-256): returns `some text` when it raises
`APIAccessError text` (status is `"error"` and the message text contains the
entitlement phrase), `none` when it merely logs. -/
def handle_status (market : String) (m : Msg) : Option String :=
  let message := m.message.getD ""
  if m.status == some "error" && containsPhrase accessPhrase message then
    some (apiAccessErrorText market message)
  else
    none

/-- A registered message handler.  `some e` models the handler raising
exception `e` when invoked; `none` a normal return. -/
def Handler : Type := Msg → Option String

/-- Invoke the handlers of `message_handlers` in registration order on one
data message (lines 228-229), starting at handler index `i`.  Returns the
invocation trace (handler index, message) and the first exception raised, if
any; handlers after a raising one are not invoked. -/
def runHandlers : Nat → List Handler → Msg → List (Nat × Msg) × Option String
  | _, [], _ => ([], none)
  | i, h :: hs, m =>
    match h m with
    | some e => ([(i, m)], some e)
    | none =>
      let r := runHandlers (i + 1) hs m
      ((i, m) :: r.1, r.2)

/-- One message of the inner `for msg in messages` loop of
`_receive_messages` (lines 210-229): a status message goes to
`_handle_status` with `APIAccessError` trapped (record `last_error`, move to
`Error`, continue); a data message is appended to the buffer, counted, and
routed to every handler.  Returns the updated connection, the handler
invocation trace, and an uncaught handler exception if one was raised. -/
def processMsg (handlers : List Handler) (c : WebSocketConnection) (m : Msg) :
    WebSocketConnection × List (Nat × Msg) × Option String :=
  if isStatusMsg m then
    match handle_status c.market m with
    | some errText =>
      ({ c with last_error := some errText, state := .error }, [], none)
    | none => (c, [], none)
  else
    let c1 := { c with
      message_buffer := dequeAppend c.buffer_maxlen c.message_buffer m
      total_messages_received := c.total_messages_received + 1 }
    let r := runHandlers 0 handlers m
    (c1, r.1, r.2)

/-- The inner `for` loop of `_receive_messages` over one frame's messages:
an uncaught handler exception aborts the loop at that message. -/
def processMsgs (handlers : List Handler) (c : WebSocketConnection) :
    List Msg → WebSocketConnection × List (Nat × Msg) × Option String
  | [] => (c, [], none)
  | m :: ms =>
    let r1 := processMsg handlers c m
    match r1.2.2 with
    | some e => (r1.1, r1.2.1, some e)
    | none =>
      let r2 := processMsgs handlers r1.1 ms
      (r2.1, r1.2.1 ++ r2.2.1, r2.2.2)

/-- The `async for message in self.websocket` loop of `_receive_messages`
(lines 201-232): a `json.JSONDecodeError` is caught and logged, a non-array
frame is logged and dropped, an array frame is processed message by message.
An uncaught handler exception terminates the loop. -/
def receiveFrames (handlers : List Handler) (c : WebSocketConnection) :
    List Frame → WebSocketConnection × List (Nat × Msg) × Option String
  | [] => (c, [], none)
  | .invalid :: fs => receiveFrames handlers c fs
  | .nonArray :: fs => receiveFrames handlers c fs
  | .array ms :: fs =>
    let r1 := processMsgs handlers c ms
    match r1.2.2 with
    | some e => (r1.1, r1.2.1, some e)
    | none =>
      let r2 := receiveFrames handlers r1.1 fs
      (r2.1, r1.2.1 ++ r2.2.1, r2.2.2)

/-- Outcome of one run of `_receive_messages`: final connection, handler
invocation trace, uncaught handler exception (the task dies with it), and
whether `_handle_connection_error` was invoked (only by the
`except ConnectionClosed` branch, lines 234-236). -/
structure LoopOutput where
  conn : WebSocketConnection
  delivered : List (Nat × Msg)
  err : Option String
  reconnect : Bool

/-- `_receive_messages` on a finite prefix of the inbound stream.  `closed`
says the stream ended with the transport raising `ConnectionClosed`, which
triggers reconnection handling; an uncaught handler exception kills the task
before that point, so no reconnection happens on that path. -/
def receiveLoop (handlers : List Handler) (c : WebSocketConnection)
    (frames : List Frame) (closed : Bool) : LoopOutput :=
  let r := receiveFrames handlers c frames
  match r.2.2 with
  | some e => { conn := r.1, delivered := r.2.1, err := some e, reconnect := false }
  | none => { conn := r.1, delivered := r.2.1, err := none, reconnect := closed }

/-- The data messages of a frame sequence, in arrival order (the messages the
receive loop buffers and routes: everything that is not a status message,
from well-formed array frames). -/
def dataMessages : List Frame → List Msg
  | [] => []
  | .invalid :: fs => dataMessages fs
  | .nonArray :: fs => dataMessages fs
  | .array ms :: fs => ms.filter (fun m => !isStatusMsg m) ++ dataMessages fs

/-- `subscribe` (lines 154-170): requires `Connected` (else raises, leaving
the object untouched); otherwise sends the subscribe frame and adds the
channels to `subscriptions` (`set.update`).  Returns the connection after
the call and `some errText` when the call raised. -/
def subscribe (c : WebSocketConnection) (channels : List String) :
    WebSocketConnection × Option String :=
  if c.state = .connected then
    ({ c with subscriptions := c.subscriptions ∪ channels.toFinset }, none)
  else
    (c, some ("Cannot subscribe: connection state is " ++ c.state.value))

/-- `unsubscribe` (lines 172-187): symmetric to `subscribe`, removing the
channels (`set.difference_update`). -/
def unsubscribe (c : WebSocketConnection) (channels : List String) :
    WebSocketConnection × Option String :=
  if c.state = .connected then
    ({ c with subscriptions := c.subscriptions \ channels.toFinset }, none)
  else
    (c, some ("Cannot unsubscribe: connection state is " ++ c.state.value))

/-- Outcome of `_authenticate` (lines 123-152): normal return, the
`auth_failed` exception (carrying `msg.get("message")`), or the
"no response" exception after the attempt budget is spent. -/
inductive AuthResult where
  | success
  | authFailed (message : Option String)
  | noResponse
deriving DecidableEq, Repr

/-- Python `str` of an optional value as used in f-strings
(`None` prints as `"None"`). -/
def pyStr : Option String → String
  | none => "None"
  | some s => s

/-- The inner `for msg in messages` loop of `_authenticate` (lines 140-150)
over one received frame: the first status message whose status is
`auth_success` or `auth_failed` decides; a `connected` status (and any other
message) is skipped and scanning continues. -/
def scanAuthFrame : List Msg → Option AuthResult
  | [] => none
  | m :: rest =>
    if m.ev == some "status" then
      if m.status == some "auth_success" then some .success
      else if m.status == some "auth_failed" then some (.authFailed m.message)
      else scanAuthFrame rest
    else scanAuthFrame rest

/-- The `for attempt in range(max_attempts)` loop of `_authenticate`:
`fuel` attempts remain, the next `recv()` returns `frames i`. -/
def authLoop (frames : Nat → List Msg) : Nat → Nat → AuthResult
  | 0, _ => .noResponse
  | fuel + 1, i =>
    match scanAuthFrame (frames i) with
    | some r => r
    | none => authLoop frames fuel (i + 1)

/-- `_authenticate` (lines 123-152): sends the auth frame, then reads at most
`max_attempts = 5` frames looking for an authentication response. -/
def authenticate (frames : Nat → List Msg) : AuthResult :=
  authLoop frames 5 0

/-- The environment one `connect()` call runs against: whether the transport
handshake (`websockets.connect`, lines 87-92) succeeds, the text of the
exception it raises when it fails, and the frames `recv()` returns during
authentication. -/
structure ConnectEnv where
  transport_ok : Bool
  transport_err : String
  frames : Nat → List Msg

/-- Outcome of one `connect()` attempt: `ok`, or the caught exception whose
handling entered the backoff/reconnect path (lines 118-121). -/
inductive ConnectOutcome where
  | ok
  | failed (err : String)
deriving DecidableEq, Repr

/-- One pass through `_handle_connection_error` up to its `sleep` (lines
258-271): set `Error`, compute `delay = min(2 ** reconnect_attempts,
max_reconnect_delay)`, increment `reconnect_attempts`.  Returns the updated
connection and the delay slept before the next `connect()` attempt; the
recursive retry is modelled by iterating this step (`backoffRun`). -/
def handle_connection_error_step (c : WebSocketConnection) :
    WebSocketConnection × Nat :=
  let c1 := { c with state := .error }
  let delay := min (2 ^ c1.reconnect_attempts) c1.max_reconnect_delay
  ({ c1 with reconnect_attempts := c1.reconnect_attempts + 1 }, delay)

/-- A run of `k` consecutive failed reconnection attempts: the delays slept,
in order, and the connection after them. -/
def backoffRun (c : WebSocketConnection) : Nat → List Nat × WebSocketConnection
  | 0 => ([], c)
  | k + 1 =>
    let r := handle_connection_error_step c
    let rest := backoffRun r.1 k
    (r.2 :: rest.1, rest.2)

/-- `connect()` (lines 72-121) as a single attempt against `env`.  On the
success path: transport opened (`websocket` set), authentication succeeds,
`reconnect_attempts` reset to 0, state `Connected`, the previous receive
task (if running) cancelled and awaited before the new one starts, and a
resubscribe request covering the whole current set is sent if it is
non-empty.  On any failure the `except` block records `Error` and runs one
`_handle_connection_error` step (whose sleep delay is returned); the
recursive retry inside `_handle_connection_error` is not unfolded here. -/
def connect (c : WebSocketConnection) (env : ConnectEnv) :
    WebSocketConnection × ConnectOutcome × Option Nat :=
  let c1 := { c with state := .connecting }
  if env.transport_ok then
    let c2 := { c1 with websocket_set := true, state := .authenticating }
    match authenticate env.frames with
    | .success =>
      let c3 := { c2 with reconnect_attempts := 0, state := .connected }
      let c4 := { c3 with
        active_receive_tasks :=
          (if 0 < c3.active_receive_tasks then c3.active_receive_tasks - 1
           else c3.active_receive_tasks) + 1 }
      -- `_resubscribe` calls `subscribe(list(self.subscriptions))`; Python's
      -- set iteration order is arbitrary, represented here by the sorted list.
      let c5 := if c4.subscriptions = ∅ then c4
                else (subscribe c4 (c4.subscriptions.sort (· ≤ ·))).1
      (c5, .ok, none)
    | .authFailed m =>
      let r := handle_connection_error_step { c2 with state := .error }
      (r.1, .failed ("Authentication failed: " ++ pyStr m), some r.2)
    | .noResponse =>
      let r := handle_connection_error_step { c2 with state := .error }
      (r.1, .failed "No authentication response received after multiple attempts",
        some r.2)
  else
    let r := handle_connection_error_step { c1 with state := .error }
    (r.1, .failed env.transport_err, some r.2)

/-- `close()` (lines 280-296): clear the buffer, cancel and await the receive
task if one is running, and only if `self.websocket` is set, close the
transport and set state `Disconnected` (the state assignment sits inside
`if self.websocket:`). -/
def close (c : WebSocketConnection) : WebSocketConnection :=
  let c1 := { c with message_buffer := [] }
  let c2 := { c1 with
    active_receive_tasks :=
      if 0 < c1.active_receive_tasks then c1.active_receive_tasks - 1
      else c1.active_receive_tasks }
  if c2.websocket_set then { c2 with state := .disconnected } else c2

/-- `ConnectionManager` (lines 346-394): the registry's map, as an
association list in insertion order. -/
structure ConnectionManager where
  connections : List (String × WebSocketConnection)
deriving DecidableEq

/-- `market in self.connections` / `self.connections[market]`. -/
def findConnection : List (String × WebSocketConnection) → String →
    Option WebSocketConnection
  | [], _ => none
  | (k, v) :: rest, market =>
    if k = market then some v else findConnection rest market

/-- `ConnectionManager.get_connection` (lines 358-383): return the existing
connection for the market if registered; otherwise default the endpoint to
the market-derived address when none (or an empty string) is supplied,
require a non-empty API key (`ValueError` otherwise, Python falsiness), and
register a fresh connection. -/
def get_connection (mgr : ConnectionManager) (market : String)
    (endpoint api_key : Option String) :
    Except String (WebSocketConnection × ConnectionManager) :=
  match findConnection mgr.connections market with
  | some conn => .ok (conn, mgr)
  | none =>
    let ep := match endpoint with
      | none => "wss://socket.polygon.io/" ++ market
      | some e => if e = "" then "wss://socket.polygon.io/" ++ market else e
    match api_key with
    | none => .error ("API key required for first connection to " ++ market)
    | some k =>
      if k = "" then .error ("API key required for first connection to " ++ market)
      else
        let conn := WebSocketConnection.init market ep k
        .ok (conn, ⟨mgr.connections ++ [(market, conn)]⟩)

/-- A `subscribe` or `unsubscribe` call with its channel-list argument. -/
inductive SubCall where
  | sub (channels : List String)
  | unsub (channels : List String)
deriving DecidableEq, Repr

/-- Apply one subscription call to the connection. -/
def applySubCall (c : WebSocketConnection) : SubCall → WebSocketConnection × Option String
  | .sub channels => subscribe c channels
  | .unsub channels => unsubscribe c channels

/-- Run a sequence of subscription calls, in order. -/
def applySubCalls (c : WebSocketConnection) : List SubCall → WebSocketConnection
  | [] => c
  | call :: rest => applySubCalls (applySubCall c call).1 rest

/-- Modelled from the claim's words ("union of all subscribed channels"):
every channel named by a `subscribe` call of the sequence. -/
def allSubscribed : List SubCall → Finset String
  | [] => ∅
  | .sub channels :: rest => channels.toFinset ∪ allSubscribed rest
  | .unsub _ :: rest => allSubscribed rest

/-- Modelled from the claim's words: every channel named by an `unsubscribe`
call of the sequence. -/
def allUnsubscribed : List SubCall → Finset String
  | [] => ∅
  | .sub _ :: rest => allUnsubscribed rest
  | .unsub channels :: rest => channels.toFinset ∪ allUnsubscribed rest

/-- Modelled from the claim's words: the "set-algebra result" of a call
sequence, union of all subscribed channels minus all unsubscribed ones. -/
def setAlgebraResult (calls : List SubCall) : Finset String :=
  allSubscribed calls \ allUnsubscribed calls

/-- The order-sensitive fold the code actually performs on `subscriptions`:
each `subscribe` unions its channels, each `unsubscribe` subtracts them, in
call order. -/
def foldSubCalls (s : Finset String) : List SubCall → Finset String
  | [] => s
  | .sub channels :: rest => foldSubCalls (s ∪ channels.toFinset) rest
  | .unsub channels :: rest => foldSubCalls (s \ channels.toFinset) rest

/-- The public operations a caller can drive one connection with, for the
receive-task invariant: each `connect` attempt runs against its own
environment, each receive-loop run against its own handlers and frames. -/
inductive Op where
  | connectOp (env : ConnectEnv)
  | closeOp
  | subscribeOp (channels : List String)
  | unsubscribeOp (channels : List String)
  | receiveOp (handlers : List Handler) (frames : List Frame) (closed : Bool)

/-- Apply one operation to the connection. -/
def applyOp (c : WebSocketConnection) : Op → WebSocketConnection
  | .connectOp env => (connect c env).1
  | .closeOp => close c
  | .subscribeOp channels => (subscribe c channels).1
  | .unsubscribeOp channels => (unsubscribe c channels).1
  | .receiveOp handlers frames closed => (receiveLoop handlers c frames closed).conn

/-- Apply a sequence of operations, in order. -/
def runOps (c : WebSocketConnection) : List Op → WebSocketConnection
  | [] => c
  | op :: rest => runOps (applyOp c op) rest

/-! ### Buffer lemmas -/

theorem length_takeLast (n : Nat) (xs : List α) :
    (takeLast n xs).length = min n xs.length := by
  simp [takeLast]
  omega

theorem takeLast_eq_self {n : Nat} {xs : List α} (h : xs.length ≤ n) :
    takeLast n xs = xs := by
  simp [takeLast, Nat.sub_eq_zero_of_le h]

theorem takeLast_zero (xs : List α) : takeLast 0 xs = [] := by
  simp [takeLast]

theorem takeLast_takeLast (k n : Nat) (xs : List α) :
    takeLast k (takeLast n xs) = takeLast (min k n) xs := by
  simp only [takeLast, List.drop_drop, List.length_drop]
  congr 1
  omega

theorem mem_takeLast {a : α} {n : Nat} {xs : List α} (h : a ∈ takeLast n xs) :
    a ∈ xs :=
  List.mem_of_mem_drop h

theorem takeLast_append_singleton {n : Nat} (hn : 0 < n) (xs : List Msg) (m : Msg) :
    takeLast n (xs ++ [m]) = xs.drop (xs.length + 1 - n) ++ [m] := by
  simp only [takeLast, List.length_append, List.length_singleton,
    List.drop_append_eq_append_drop]
  have h0 : xs.length + 1 - n - xs.length = 0 := by omega
  rw [h0, List.drop_zero]

theorem dequeAppend_takeLast {n : Nat} (hn : 0 < n) (xs : List Msg) (m : Msg) :
    dequeAppend n (takeLast n xs) m = takeLast n (xs ++ [m]) := by
  rcases le_or_lt n xs.length with h | h
  · have hlen : (takeLast n xs).length = n := by
      rw [length_takeLast]; omega
    have hcond : n < (takeLast n xs ++ [m]).length := by
      simp [hlen]
    have hdropn : (takeLast n xs ++ [m]).length - n = 1 := by
      simp [hlen]
    have e1 : dequeAppend n (takeLast n xs) m = (takeLast n xs ++ [m]).drop 1 := by
      simp only [dequeAppend]
      rw [if_pos hcond, hdropn]
    rw [e1, List.drop_append_eq_append_drop, hlen]
    have h1n : 1 - n = 0 := by omega
    rw [h1n, List.drop_zero]
    rw [takeLast_append_singleton hn]
    simp only [takeLast, List.drop_drop]
    congr 2
    omega
  · have h1 : takeLast n xs = xs := takeLast_eq_self (Nat.le_of_lt h)
    have h2 : takeLast n (xs ++ [m]) = xs ++ [m] := by
      apply takeLast_eq_self
      simp only [List.length_append, List.length_singleton]
      omega
    simp only [dequeAppend, h1, h2]
    rw [if_neg]
    simp only [List.length_append, List.length_singleton]
    omega

/-! ### Receive-loop lemmas -/

theorem runHandlers_none {handlers : List Handler} {m : Msg}
    (h : ∀ f ∈ handlers, f m = none) (i : Nat) :
    (runHandlers i handlers m).2 = none := by
  induction handlers generalizing i with
  | nil => rfl
  | cons f fs ih =>
    have hf : f m = none := h f (List.mem_cons_self f fs)
    simp only [runHandlers, hf]
    exact ih (fun g hg => h g (List.mem_cons_of_mem f hg)) (i + 1)

/-- The fields of the connection `processMsg` can never change. -/
theorem processMsg_fields (handlers : List Handler) (c : WebSocketConnection)
    (m : Msg) :
    (processMsg handlers c m).1.market = c.market ∧
    (processMsg handlers c m).1.websocket_set = c.websocket_set ∧
    (processMsg handlers c m).1.subscriptions = c.subscriptions ∧
    (processMsg handlers c m).1.reconnect_attempts = c.reconnect_attempts ∧
    (processMsg handlers c m).1.max_reconnect_delay = c.max_reconnect_delay ∧
    (processMsg handlers c m).1.buffer_maxlen = c.buffer_maxlen ∧
    (processMsg handlers c m).1.active_receive_tasks = c.active_receive_tasks := by
  unfold processMsg
  by_cases hs : isStatusMsg m
  · simp only [hs, if_pos]
    cases handle_status c.market m <;> simp
  · simp [hs]

/-- The fields of the connection the inner message loop can never change. -/
theorem processMsgs_fields (handlers : List Handler) (ms : List Msg) :
    ∀ c : WebSocketConnection,
    (processMsgs handlers c ms).1.market = c.market ∧
    (processMsgs handlers c ms).1.websocket_set = c.websocket_set ∧
    (processMsgs handlers c ms).1.subscriptions = c.subscriptions ∧
    (processMsgs handlers c ms).1.reconnect_attempts = c.reconnect_attempts ∧
    (processMsgs handlers c ms).1.max_reconnect_delay = c.max_reconnect_delay ∧
    (processMsgs handlers c ms).1.buffer_maxlen = c.buffer_maxlen ∧
    (processMsgs handlers c ms).1.active_receive_tasks = c.active_receive_tasks := by
  induction ms with
  | nil => intro c; simp [processMsgs]
  | cons m rest ih =>
    intro c
    obtain ⟨h1, h2, h3, h4, h5, h6, h7⟩ := processMsg_fields handlers c m
    obtain ⟨g1, g2, g3, g4, g5, g6, g7⟩ := ih (processMsg handlers c m).1
    unfold processMsgs
    cases he : (processMsg handlers c m).2.2 with
    | some e => simp only [he]; exact ⟨h1, h2, h3, h4, h5, h6, h7⟩
    | none =>
      simp only [he]
      exact ⟨g1.trans h1, g2.trans h2, g3.trans h3, g4.trans h4,
        g5.trans h5, g6.trans h6, g7.trans h7⟩

/-- The fields of the connection the whole receive loop can never change. -/
theorem receiveFrames_fields (handlers : List Handler) (frames : List Frame) :
    ∀ c : WebSocketConnection,
    (receiveFrames handlers c frames).1.market = c.market ∧
    (receiveFrames handlers c frames).1.websocket_set = c.websocket_set ∧
    (receiveFrames handlers c frames).1.subscriptions = c.subscriptions ∧
    (receiveFrames handlers c frames).1.reconnect_attempts = c.reconnect_attempts ∧
    (receiveFrames handlers c frames).1.max_reconnect_delay = c.max_reconnect_delay ∧
    (receiveFrames handlers c frames).1.buffer_maxlen = c.buffer_maxlen ∧
    (receiveFrames handlers c frames).1.active_receive_tasks = c.active_receive_tasks := by
  induction frames with
  | nil => intro c; simp [receiveFrames]
  | cons f rest ih =>
    intro c
    cases f with
    | invalid => exact ih c
    | nonArray => exact ih c
    | array ms =>
      obtain ⟨h1, h2, h3, h4, h5, h6, h7⟩ := processMsgs_fields handlers ms c
      obtain ⟨g1, g2, g3, g4, g5, g6, g7⟩ := ih (processMsgs handlers c ms).1
      unfold receiveFrames
      cases he : (processMsgs handlers c ms).2.2 with
      | some e => simp only [he]; exact ⟨h1, h2, h3, h4, h5, h6, h7⟩
      | none =>
        simp only [he]
        exact ⟨g1.trans h1, g2.trans h2, g3.trans h3, g4.trans h4,
          g5.trans h5, g6.trans h6, g7.trans h7⟩

/-- Buffer and counter evolution of the inner message loop, for handlers
that never raise: the buffer always holds the last `maxlen` data messages
and the counter counts exactly the data messages. -/
theorem processMsgs_data {handlers : List Handler}
    (hh : ∀ f ∈ handlers, ∀ m, f m = none) (ms : List Msg) :
    ∀ (c : WebSocketConnection) (acc : List Msg),
    0 < c.buffer_maxlen →
    c.message_buffer = takeLast c.buffer_maxlen acc →
    c.total_messages_received = acc.length →
    (processMsgs handlers c ms).2.2 = none ∧
    (processMsgs handlers c ms).1.message_buffer =
      takeLast c.buffer_maxlen (acc ++ ms.filter (fun m => !isStatusMsg m)) ∧
    (processMsgs handlers c ms).1.total_messages_received =
      acc.length + (ms.filter (fun m => !isStatusMsg m)).length := by
  induction ms with
  | nil =>
    intro c acc hpos hbuf htot
    refine ⟨rfl, ?_, ?_⟩
    · simpa using hbuf
    · simpa using htot
  | cons m rest ih =>
    intro c acc hpos hbuf htot
    by_cases hs : isStatusMsg m
    · -- status message: buffer and counter untouched, filter drops it
      have hme : (processMsg handlers c m).2.2 = none := by
        unfold processMsg
        simp only [hs, if_pos]
        cases handle_status c.market m <;> simp
      have hby : (processMsg handlers c m).1.message_buffer = c.message_buffer ∧
          (processMsg handlers c m).1.total_messages_received =
            c.total_messages_received ∧
          (processMsg handlers c m).1.buffer_maxlen = c.buffer_maxlen := by
        unfold processMsg
        simp only [hs, if_pos]
        cases handle_status c.market m <;> simp
      obtain ⟨hb, ht, hm⟩ := hby
      have := ih (processMsg handlers c m).1 acc
        (by rw [hm]; exact hpos) (by rw [hb, hm]; exact hbuf) (by rw [ht]; exact htot)
      obtain ⟨e1, e2, e3⟩ := this
      have hf : (m :: rest).filter (fun x => !isStatusMsg x) =
          rest.filter (fun x => !isStatusMsg x) := by
        simp [List.filter_cons, hs]
      simp only [processMsgs, hme, hf]
      rw [hm] at e2
      exact ⟨e1, e2, e3⟩
    · -- data message: appended, counted, handlers run and return normally
      have hrh : (runHandlers 0 handlers m).2 = none :=
        runHandlers_none (fun f hf => hh f hf m) 0
      have hme : (processMsg handlers c m).2.2 = none := by
        unfold processMsg
        simp only [hs, if_neg, Bool.false_eq_true, not_false_eq_true]
        simpa using hrh
      have hb : (processMsg handlers c m).1.message_buffer =
          dequeAppend c.buffer_maxlen c.message_buffer m ∧
          (processMsg handlers c m).1.total_messages_received =
            c.total_messages_received + 1 ∧
          (processMsg handlers c m).1.buffer_maxlen = c.buffer_maxlen := by
        unfold processMsg
        simp [hs]
      obtain ⟨hb1, hb2, hb3⟩ := hb
      have hbuf1 : (processMsg handlers c m).1.message_buffer =
          takeLast c.buffer_maxlen (acc ++ [m]) := by
        rw [hb1, hbuf, dequeAppend_takeLast hpos]
      have := ih (processMsg handlers c m).1 (acc ++ [m])
        (by rw [hb3]; exact hpos)
        (by rw [hb3]; exact hbuf1)
        (by rw [hb2, htot]; simp)
      obtain ⟨e1, e2, e3⟩ := this
      have hf : (m :: rest).filter (fun x => !isStatusMsg x) =
          m :: rest.filter (fun x => !isStatusMsg x) := by
        simp [List.filter_cons, hs]
      simp only [processMsgs, hme, hf]
      rw [hb3] at e2
      refine ⟨e1, ?_, ?_⟩
      · rw [e2, List.append_assoc]
        rfl
      · rw [e3]
        simp only [List.length_append, List.length_singleton, List.length_cons,
          List.length_nil]
        omega

/-- Buffer and counter evolution of the whole receive loop over a frame
sequence, for handlers that never raise. -/
theorem receiveFrames_data {handlers : List Handler}
    (hh : ∀ f ∈ handlers, ∀ m, f m = none) (frames : List Frame) :
    ∀ (c : WebSocketConnection) (acc : List Msg),
    0 < c.buffer_maxlen →
    c.message_buffer = takeLast c.buffer_maxlen acc →
    c.total_messages_received = acc.length →
    (receiveFrames handlers c frames).2.2 = none ∧
    (receiveFrames handlers c frames).1.message_buffer =
      takeLast c.buffer_maxlen (acc ++ dataMessages frames) ∧
    (receiveFrames handlers c frames).1.total_messages_received =
      acc.length + (dataMessages frames).length := by
  induction frames with
  | nil =>
    intro c acc hpos hbuf htot
    refine ⟨rfl, ?_, ?_⟩
    · simpa [dataMessages] using hbuf
    · simpa [dataMessages] using htot
  | cons f rest ih =>
    intro c acc hpos hbuf htot
    cases f with
    | invalid => exact ih c acc hpos hbuf htot
    | nonArray => exact ih c acc hpos hbuf htot
    | array ms =>
      obtain ⟨e1, e2, e3⟩ := processMsgs_data hh ms c acc hpos hbuf htot
      have hmax : (processMsgs handlers c ms).1.buffer_maxlen = c.buffer_maxlen :=
        (processMsgs_fields handlers ms c).2.2.2.2.2.1
      obtain ⟨g1, g2, g3⟩ := ih (processMsgs handlers c ms).1
        (acc ++ ms.filter (fun m => !isStatusMsg m))
        (by rw [hmax]; exact hpos)
        (by rw [hmax]; exact e2)
        (by rw [e3]; simp)
      simp only [receiveFrames, e1]
      rw [hmax] at g2
      simp only [dataMessages]
      refine ⟨g1, ?_, ?_⟩
      · rw [g2, List.append_assoc]
      · rw [g3]
        simp only [List.length_append]
        omega

/-- The final connection of a loop run, whether or not a handler raised. -/
theorem receiveLoop_conn (handlers : List Handler) (c : WebSocketConnection)
    (frames : List Frame) (closed : Bool) :
    (receiveLoop handlers c frames closed).conn = (receiveFrames handlers c frames).1 := by
  unfold receiveLoop
  cases h : (receiveFrames handlers c frames).2.2 <;> simp [h]

/-- `get_recent_messages` always returns the last `min limit buffered`
buffered messages. -/
theorem get_recent_messages_eq (c : WebSocketConnection) (k : Nat) :
    get_recent_messages c k = takeLast (min k c.message_buffer.length) c.message_buffer := by
  unfold get_recent_messages
  by_cases h : 0 < min k c.message_buffer.length
  · simp [h]
  · have h0 : min k c.message_buffer.length = 0 := by omega
    simp [h, h0, takeLast_zero]

/-- Every message of `dataMessages` is a data message. -/
theorem dataMessages_no_status :
    ∀ frames : List Frame, ∀ m ∈ dataMessages frames, isStatusMsg m = false := by
  intro frames
  induction frames with
  | nil => simp [dataMessages]
  | cons f rest ih =>
    cases f with
    | invalid => simpa [dataMessages] using ih
    | nonArray => simpa [dataMessages] using ih
    | array ms =>
      intro m hm
      simp only [dataMessages, List.mem_append] at hm
      rcases hm with hm | hm
      · have := List.of_mem_filter hm
        simpa using this
      · exact ih m hm

/-- C1: on a fresh connection (buffer capacity 100), after the receive loop
processes any sequence of frames whose data messages are `D` (interleaved
with any number of status messages, with handlers that do not raise),
`get_message_stats` reports `total_received = |D|` and
`buffered = min |D| 100`, the buffer holds exactly the last 100 data
messages, `get_recent_messages k` returns the last `min k buffered` data
messages in arrival order, and no status message is in the buffer. -/
theorem claim_C1_buffer_and_stats (market endpoint key : String)
    (handlers : List Handler) (frames : List Frame) (closed : Bool)
    (hh : ∀ f ∈ handlers, ∀ m, f m = none) :
    (get_message_stats (receiveLoop handlers
        (WebSocketConnection.init market endpoint key) frames closed).conn).total_received
      = (dataMessages frames).length ∧
    (get_message_stats (receiveLoop handlers
        (WebSocketConnection.init market endpoint key) frames closed).conn).buffered
      = min (dataMessages frames).length 100 ∧
    (receiveLoop handlers (WebSocketConnection.init market endpoint key) frames
        closed).conn.message_buffer = takeLast 100 (dataMessages frames) ∧
    (∀ k : Nat, get_recent_messages (receiveLoop handlers
        (WebSocketConnection.init market endpoint key) frames closed).conn k
      = takeLast (min k (min (dataMessages frames).length 100)) (dataMessages frames)) ∧
    (∀ m ∈ (receiveLoop handlers (WebSocketConnection.init market endpoint key)
        frames closed).conn.message_buffer, isStatusMsg m = false) := by
  obtain ⟨e1, e2, e3⟩ := receiveFrames_data hh frames
    (WebSocketConnection.init market endpoint key) []
    (by simp [WebSocketConnection.init]) rfl rfl
  rw [receiveLoop_conn]
  have hbuf : (receiveFrames handlers (WebSocketConnection.init market endpoint key)
      frames).1.message_buffer = takeLast 100 (dataMessages frames) := by
    simpa [WebSocketConnection.init] using e2
  have htot : (receiveFrames handlers (WebSocketConnection.init market endpoint key)
      frames).1.total_messages_received = (dataMessages frames).length := by
    simpa using e3
  have hlen : (takeLast 100 (dataMessages frames)).length
      = min (dataMessages frames).length 100 := by
    rw [length_takeLast]
    omega
  refine ⟨?_, ?_, hbuf, ?_, ?_⟩
  · simpa [get_message_stats] using htot
  · simp only [get_message_stats]
    rw [hbuf, hlen]
  · intro k
    rw [get_recent_messages_eq, hbuf, hlen, takeLast_takeLast]
    congr 1
    omega
  · intro m hm
    rw [hbuf] at hm
    exact dataMessages_no_status frames m (mem_takeLast hm)

/-- C1 witness: three data messages interleaved with a status message and a
malformed frame. -/
theorem claim_C1_witness :
    (get_message_stats (receiveLoop []
        (WebSocketConnection.init "stocks" "wss://socket.polygon.io/stocks" "k")
        [Frame.array [⟨some "T", none, none, 1⟩,
          ⟨some "status", some "connected", some "Connected Successfully", 0⟩,
          ⟨some "T", none, none, 2⟩], Frame.invalid,
         Frame.array [⟨some "T", none, none, 3⟩]] false).conn).total_received
      = (dataMessages [Frame.array [⟨some "T", none, none, 1⟩,
          ⟨some "status", some "connected", some "Connected Successfully", 0⟩,
          ⟨some "T", none, none, 2⟩], Frame.invalid,
         Frame.array [⟨some "T", none, none, 3⟩]]).length ∧
    (get_message_stats (receiveLoop []
        (WebSocketConnection.init "stocks" "wss://socket.polygon.io/stocks" "k")
        [Frame.array [⟨some "T", none, none, 1⟩,
          ⟨some "status", some "connected", some "Connected Successfully", 0⟩,
          ⟨some "T", none, none, 2⟩], Frame.invalid,
         Frame.array [⟨some "T", none, none, 3⟩]] false).conn).buffered
      = min (dataMessages [Frame.array [⟨some "T", none, none, 1⟩,
          ⟨some "status", some "connected", some "Connected Successfully", 0⟩,
          ⟨some "T", none, none, 2⟩], Frame.invalid,
         Frame.array [⟨some "T", none, none, 3⟩]]).length 100 ∧
    (receiveLoop []
        (WebSocketConnection.init "stocks" "wss://socket.polygon.io/stocks" "k")
        [Frame.array [⟨some "T", none, none, 1⟩,
          ⟨some "status", some "connected", some "Connected Successfully", 0⟩,
          ⟨some "T", none, none, 2⟩], Frame.invalid,
         Frame.array [⟨some "T", none, none, 3⟩]] false).conn.message_buffer
      = takeLast 100 (dataMessages [Frame.array [⟨some "T", none, none, 1⟩,
          ⟨some "status", some "connected", some "Connected Successfully", 0⟩,
          ⟨some "T", none, none, 2⟩], Frame.invalid,
         Frame.array [⟨some "T", none, none, 3⟩]]) ∧
    (∀ k : Nat, get_recent_messages (receiveLoop []
        (WebSocketConnection.init "stocks" "wss://socket.polygon.io/stocks" "k")
        [Frame.array [⟨some "T", none, none, 1⟩,
          ⟨some "status", some "connected", some "Connected Successfully", 0⟩,
          ⟨some "T", none, none, 2⟩], Frame.invalid,
         Frame.array [⟨some "T", none, none, 3⟩]] false).conn k
      = takeLast (min k (min (dataMessages [Frame.array [⟨some "T", none, none, 1⟩,
          ⟨some "status", some "connected", some "Connected Successfully", 0⟩,
          ⟨some "T", none, none, 2⟩], Frame.invalid,
         Frame.array [⟨some "T", none, none, 3⟩]]).length 100))
        (dataMessages [Frame.array [⟨some "T", none, none, 1⟩,
          ⟨some "status", some "connected", some "Connected Successfully", 0⟩,
          ⟨some "T", none, none, 2⟩], Frame.invalid,
         Frame.array [⟨some "T", none, none, 3⟩]])) ∧
    (∀ m ∈ (receiveLoop []
        (WebSocketConnection.init "stocks" "wss://socket.polygon.io/stocks" "k")
        [Frame.array [⟨some "T", none, none, 1⟩,
          ⟨some "status", some "connected", some "Connected Successfully", 0⟩,
          ⟨some "T", none, none, 2⟩], Frame.invalid,
         Frame.array [⟨some "T", none, none, 3⟩]] false).conn.message_buffer,
      isStatusMsg m = false) :=
  claim_C1_buffer_and_stats "stocks" "wss://socket.polygon.io/stocks" "k" []
    [Frame.array [⟨some "T", none, none, 1⟩,
      ⟨some "status", some "connected", some "Connected Successfully", 0⟩,
      ⟨some "T", none, none, 2⟩], Frame.invalid,
     Frame.array [⟨some "T", none, none, 3⟩]] false (by simp)

/-- Backoff delays from an arbitrary starting attempt count. -/
theorem backoffRun_delays (k : Nat) :
    ∀ c : WebSocketConnection,
    (backoffRun c k).1 = (List.range k).map
      (fun i => min (2 ^ (c.reconnect_attempts + i)) c.max_reconnect_delay) ∧
    (backoffRun c k).2.reconnect_attempts = c.reconnect_attempts + k ∧
    (backoffRun c k).2.max_reconnect_delay = c.max_reconnect_delay := by
  induction k with
  | zero => intro c; simp [backoffRun]
  | succ n ih =>
    intro c
    obtain ⟨h1, h2, h3⟩ := ih (handle_connection_error_step c).1
    have hstep : (handle_connection_error_step c).1.reconnect_attempts
        = c.reconnect_attempts + 1 ∧
        (handle_connection_error_step c).1.max_reconnect_delay
        = c.max_reconnect_delay ∧
        (handle_connection_error_step c).2
        = min (2 ^ c.reconnect_attempts) c.max_reconnect_delay := by
      simp [handle_connection_error_step]
    obtain ⟨s1, s2, s3⟩ := hstep
    refine ⟨?_, ?_, ?_⟩
    · simp only [backoffRun, s3, h1, s1, s2, List.range_succ_eq_map, List.map_cons,
        List.map_map]
      congr 1
      apply List.map_congr_left
      intro a _
      have harith : c.reconnect_attempts + 1 + a = c.reconnect_attempts + (a + 1) := by
        omega
      simp [Function.comp_apply, harith]
    · simp only [backoffRun, h2, s1]
      omega
    · simp only [backoffRun, h3, s2]

/-- `subscribe` never changes any field other than `subscriptions`, and
changes nothing at all when it raises. -/
theorem subscribe_fields (c : WebSocketConnection) (channels : List String) :
    (subscribe c channels).1.market = c.market ∧
    (subscribe c channels).1.state = c.state ∧
    (subscribe c channels).1.websocket_set = c.websocket_set ∧
    (subscribe c channels).1.reconnect_attempts = c.reconnect_attempts ∧
    (subscribe c channels).1.max_reconnect_delay = c.max_reconnect_delay ∧
    (subscribe c channels).1.message_buffer = c.message_buffer ∧
    (subscribe c channels).1.buffer_maxlen = c.buffer_maxlen ∧
    (subscribe c channels).1.total_messages_received = c.total_messages_received ∧
    (subscribe c channels).1.last_error = c.last_error ∧
    (subscribe c channels).1.active_receive_tasks = c.active_receive_tasks := by
  unfold subscribe
  by_cases h : c.state = .connected <;> simp [h]

/-- Resubscribing the whole current set does not change the set. -/
theorem union_sort_toFinset (s : Finset String) :
    s ∪ (s.sort (· ≤ ·)).toFinset = s := by
  rw [Finset.sort_toFinset]
  exact Finset.union_self s

/-- The success path of `connect()`: outcome, counter reset, final state,
transport flag, unchanged subscriptions, and the receive-task bookkeeping
(cancel the running task if any, then start exactly one). -/
theorem connect_success_state (c : WebSocketConnection) (env : ConnectEnv)
    (htr : env.transport_ok = true)
    (hauth : authenticate env.frames = .success) :
    (connect c env).1.reconnect_attempts = 0 ∧
    (connect c env).2.1 = .ok ∧
    ((connect c env).1.state = .connected ∧
     (connect c env).1.websocket_set = true ∧
     (connect c env).1.subscriptions = c.subscriptions ∧
     (connect c env).1.active_receive_tasks =
       (if 0 < c.active_receive_tasks then c.active_receive_tasks - 1
        else c.active_receive_tasks) + 1) := by
  simp only [connect, htr, hauth, if_true]
  by_cases hsub : c.subscriptions = ∅ <;>
    simp [hsub, subscribe, union_sort_toFinset]

/-- C2: a successful `connect()` resets `reconnect_attempts` to 0; starting
from `reconnect_attempts = 0` and the ceiling of 30, a run of `k`
consecutive failed attempts sleeps exactly
`min(2^0,30), min(2^1,30), …, min(2^(k-1),30)` seconds (so the k-th attempt
waits `min(2^(k-1),30)`), incrementing `reconnect_attempts` once per
attempt; the first eight delays are `1, 2, 4, 8, 16, 30, 30, 30`. -/
theorem claim_C2_backoff :
    (∀ (c : WebSocketConnection) (env : ConnectEnv),
      env.transport_ok = true → authenticate env.frames = .success →
      (connect c env).1.reconnect_attempts = 0 ∧ (connect c env).2.1 = .ok) ∧
    (∀ (c : WebSocketConnection) (k : Nat),
      c.reconnect_attempts = 0 → c.max_reconnect_delay = 30 →
      (backoffRun c k).1 = (List.range k).map (fun i => min (2 ^ i) 30) ∧
      (backoffRun c k).2.reconnect_attempts = k) ∧
    (List.range 8).map (fun i => min (2 ^ i) 30) = [1, 2, 4, 8, 16, 30, 30, 30] := by
  refine ⟨?_, ?_, by decide⟩
  · intro c env htr hauth
    obtain ⟨o1, o2, _⟩ := connect_success_state c env htr hauth
    exact ⟨o1, o2⟩
  · intro c k h0 h30
    obtain ⟨h1, h2, h3⟩ := backoffRun_delays k c
    rw [h0, h30] at h1
    rw [h0] at h2
    refine ⟨?_, by simpa using h2⟩
    rw [h1]
    apply List.map_congr_left
    intro i _
    simp

/-- C2 witness: a concrete successful connect resets the counter, and a
concrete run of 8 failed attempts from a fresh connection produces the
advertised delays. -/
theorem claim_C2_witness :
    ((connect ({ WebSocketConnection.init "stocks" "e" "k" with
        reconnect_attempts := 7 })
      { transport_ok := true, transport_err := "",
        frames := fun _ => [⟨some "status", some "auth_success", none, 0⟩] }).1.reconnect_attempts = 0 ∧
     (connect ({ WebSocketConnection.init "stocks" "e" "k" with
        reconnect_attempts := 7 })
      { transport_ok := true, transport_err := "",
        frames := fun _ => [⟨some "status", some "auth_success", none, 0⟩] }).2.1 = .ok) ∧
    ((backoffRun (WebSocketConnection.init "stocks" "e" "k") 8).1
        = (List.range 8).map (fun i => min (2 ^ i) 30) ∧
     (backoffRun (WebSocketConnection.init "stocks" "e" "k") 8).2.reconnect_attempts = 8) :=
  ⟨claim_C2_backoff.1 ({ WebSocketConnection.init "stocks" "e" "k" with
      reconnect_attempts := 7 })
    { transport_ok := true, transport_err := "",
      frames := fun _ => [⟨some "status", some "auth_success", none, 0⟩] }
    rfl (by decide),
   claim_C2_backoff.2.1 (WebSocketConnection.init "stocks" "e" "k") 8 rfl rfl⟩

/-- C3 counterexample: on a Connected connection with no subscriptions, the
call sequence `unsubscribe ["a"]; subscribe ["a"]` leaves
`subscriptions = a` while the set-algebra result
(union of subscribed minus union of unsubscribed) is empty — so the final
set does not equal the ∪-then-− result and the order of calls matters. -/
theorem claim_C3_counterexample :
    (applySubCalls { WebSocketConnection.init "stocks" "e" "k" with
        state := .connected }
      [SubCall.unsub ["a"], SubCall.sub ["a"]]).subscriptions
    ≠ setAlgebraResult [SubCall.unsub ["a"], SubCall.sub ["a"]] := by
  decide

/-- C3 (amended): for every sequence of subscribe/unsubscribe calls made
while Connected, every call succeeds, the connection stays Connected, and
the final `subscriptions` set equals the left-to-right fold of the calls
(union for each subscribe, set difference for each unsubscribe, in call
order).  The ∪-then-− set-algebra value is only reached for orders that
never resubscribe an unsubscribed channel; order matters in general. -/
theorem claim_C3_fold_in_call_order (c : WebSocketConnection)
    (calls : List SubCall) (hc : c.state = .connected) :
    (applySubCalls c calls).subscriptions = foldSubCalls c.subscriptions calls ∧
    (applySubCalls c calls).state = .connected := by
  induction calls generalizing c with
  | nil => exact ⟨rfl, hc⟩
  | cons call rest ih =>
    cases call with
    | sub channels =>
      have h1 : (subscribe c channels).1.subscriptions
          = c.subscriptions ∪ channels.toFinset := by
        simp [subscribe, hc]
      have h2 : (subscribe c channels).1.state = .connected := by
        simp [subscribe, hc]
      obtain ⟨g1, g2⟩ := ih (subscribe c channels).1 h2
      refine ⟨?_, g2⟩
      simp only [applySubCalls, applySubCall]
      rw [g1, h1]
      rfl
    | unsub channels =>
      have h1 : (unsubscribe c channels).1.subscriptions
          = c.subscriptions \ channels.toFinset := by
        simp [unsubscribe, hc]
      have h2 : (unsubscribe c channels).1.state = .connected := by
        simp [unsubscribe, hc]
      obtain ⟨g1, g2⟩ := ih (unsubscribe c channels).1 h2
      refine ⟨?_, g2⟩
      simp only [applySubCalls, applySubCall]
      rw [g1, h1]
      rfl

/-- C3 witness: the amended fold law at a concrete Connected connection and
call sequence. -/
theorem claim_C3_witness :
    (applySubCalls { WebSocketConnection.init "stocks" "e" "k" with
        state := .connected }
      [SubCall.sub ["T.AAPL", "Q.MSFT"], SubCall.unsub ["T.AAPL"],
       SubCall.sub ["T.AAPL"]]).subscriptions
      = foldSubCalls ({ WebSocketConnection.init "stocks" "e" "k" with
          state := .connected } : WebSocketConnection).subscriptions
        [SubCall.sub ["T.AAPL", "Q.MSFT"], SubCall.unsub ["T.AAPL"],
         SubCall.sub ["T.AAPL"]] ∧
    (applySubCalls { WebSocketConnection.init "stocks" "e" "k" with
        state := .connected }
      [SubCall.sub ["T.AAPL", "Q.MSFT"], SubCall.unsub ["T.AAPL"],
       SubCall.sub ["T.AAPL"]]).state = .connected :=
  claim_C3_fold_in_call_order
    { WebSocketConnection.init "stocks" "e" "k" with state := .connected }
    [SubCall.sub ["T.AAPL", "Q.MSFT"], SubCall.unsub ["T.AAPL"],
     SubCall.sub ["T.AAPL"]] rfl

/-- C4: subscribing or unsubscribing while the state is not Connected raises
the invalid-state error synchronously and mutates nothing: the returned
connection is exactly the input connection (so `subscriptions` and `state`
are untouched), and the error text names the current state. -/
theorem claim_C4_invalid_state (c : WebSocketConnection)
    (channels : List String) (h : c.state ≠ .connected) :
    subscribe c channels =
      (c, some ("Cannot subscribe: connection state is " ++ c.state.value)) ∧
    unsubscribe c channels =
      (c, some ("Cannot unsubscribe: connection state is " ++ c.state.value)) := by
  unfold subscribe unsubscribe
  simp [h]

/-- C4 witness: a fresh (Disconnected) connection rejects both calls
unchanged. -/
theorem claim_C4_witness :
    subscribe (WebSocketConnection.init "stocks" "e" "k") ["T.AAPL"] =
      (WebSocketConnection.init "stocks" "e" "k",
       some ("Cannot subscribe: connection state is "
         ++ (WebSocketConnection.init "stocks" "e" "k").state.value)) ∧
    unsubscribe (WebSocketConnection.init "stocks" "e" "k") ["T.AAPL"] =
      (WebSocketConnection.init "stocks" "e" "k",
       some ("Cannot unsubscribe: connection state is "
         ++ (WebSocketConnection.init "stocks" "e" "k").state.value)) :=
  claim_C4_invalid_state (WebSocketConnection.init "stocks" "e" "k")
    ["T.AAPL"] (by decide)

/-- `authLoop` only looks at the frames its fuel lets it read. -/
theorem authLoop_congr :
    ∀ (fuel start : Nat) (f g : Nat → List Msg),
    (∀ j, j < fuel → f (start + j) = g (start + j)) →
    authLoop f fuel start = authLoop g fuel start := by
  intro fuel
  induction fuel with
  | zero => intro start f g _; rfl
  | succ n ih =>
    intro start f g h
    have h0 : f start = g start := by
      have := h 0 (Nat.succ_pos n)
      simpa using this
    simp only [authLoop, h0]
    cases scanAuthFrame (g start) with
    | some r => rfl
    | none =>
      exact ih (start + 1) f g (fun j hj => by
        have := h (j + 1) (by omega)
        have harith : start + (j + 1) = start + 1 + j := by omega
        rwa [harith] at this)

/-- The first decisive frame within the budget decides the auth result. -/
theorem authLoop_decisive :
    ∀ (k fuel start : Nat) (f : Nat → List Msg) (r : AuthResult),
    k < fuel →
    (∀ j, j < k → scanAuthFrame (f (start + j)) = none) →
    scanAuthFrame (f (start + k)) = some r →
    authLoop f fuel start = r := by
  intro k
  induction k with
  | zero =>
    intro fuel start f r hk _ hscan
    cases fuel with
    | zero => omega
    | succ n =>
      have hscan0 : scanAuthFrame (f start) = some r := by simpa using hscan
      simp only [authLoop, hscan0]
  | succ k ih =>
    intro fuel start f r hk hnone hscan
    cases fuel with
    | zero => omega
    | succ n =>
      have h0 : scanAuthFrame (f start) = none := by
        have := hnone 0 (Nat.succ_pos k)
        simpa using this
      simp only [authLoop, h0]
      refine ih n (start + 1) f r (by omega) ?_ ?_
      · intro j hj
        have := hnone (j + 1) (by omega)
        have harith : start + (j + 1) = start + 1 + j := by omega
        rwa [harith] at this
      · have harith : start + (k + 1) = start + 1 + k := by omega
        rwa [harith] at hscan

/-- If no frame within the budget is decisive, the loop exhausts its fuel. -/
theorem authLoop_exhaust :
    ∀ (fuel start : Nat) (f : Nat → List Msg),
    (∀ j, j < fuel → scanAuthFrame (f (start + j)) = none) →
    authLoop f fuel start = .noResponse := by
  intro fuel
  induction fuel with
  | zero => intro start f _; rfl
  | succ n ih =>
    intro start f h
    have h0 : scanAuthFrame (f start) = none := by
      have := h 0 (Nat.succ_pos n)
      simpa using this
    simp only [authLoop, h0]
    exact ih (start + 1) f (fun j hj => by
      have := h (j + 1) (by omega)
      have harith : start + (j + 1) = start + 1 + j := by omega
      rwa [harith] at this)

/-- C5: authentication reads at most 5 inbound frames (the result depends
only on frames 0..4); within a frame, a `connected` status is skipped and
scanning continues, an `auth_success` status completes authentication, an
`auth_failed` status raises the fatal authentication error; the first
decisive frame within the 5-attempt budget decides the result, and if no
frame within the budget is decisive the fatal no-response error is raised;
and when authentication ends in `auth_failed`, `connect()` fails with the
authentication error and leaves the connection state `Error`. -/
theorem claim_C5_authentication :
    (∀ f g : Nat → List Msg, (∀ i, i < 5 → f i = g i) →
      authenticate f = authenticate g) ∧
    (∀ (m : Msg) (rest : List Msg), m.ev = some "status" →
      m.status = some "connected" →
      scanAuthFrame (m :: rest) = scanAuthFrame rest) ∧
    (∀ (m : Msg) (rest : List Msg), m.ev = some "status" →
      m.status = some "auth_success" →
      scanAuthFrame (m :: rest) = some .success) ∧
    (∀ (m : Msg) (rest : List Msg), m.ev = some "status" →
      m.status = some "auth_failed" →
      scanAuthFrame (m :: rest) = some (.authFailed m.message)) ∧
    (∀ (f : Nat → List Msg) (i : Nat) (r : AuthResult), i < 5 →
      (∀ j, j < i → scanAuthFrame (f j) = none) →
      scanAuthFrame (f i) = some r → authenticate f = r) ∧
    (∀ f : Nat → List Msg, (∀ i, i < 5 → scanAuthFrame (f i) = none) →
      authenticate f = .noResponse) ∧
    (∀ (c : WebSocketConnection) (env : ConnectEnv) (mm : Option String),
      env.transport_ok = true → authenticate env.frames = .authFailed mm →
      (connect c env).2.1 = .failed ("Authentication failed: " ++ pyStr mm) ∧
      (connect c env).1.state = .error) := by
  refine ⟨?_, ?_, ?_, ?_, ?_, ?_, ?_⟩
  · intro f g h
    exact authLoop_congr 5 0 f g (fun j hj => by simpa using h j hj)
  · intro m rest hev hst
    simp [scanAuthFrame, hev, hst]
  · intro m rest hev hst
    simp [scanAuthFrame, hev, hst]
  · intro m rest hev hst
    simp [scanAuthFrame, hev, hst]
  · intro f i r hi hnone hscan
    exact authLoop_decisive i 5 0 f r hi
      (fun j hj => by simpa using hnone j hj) (by simpa using hscan)
  · intro f h
    exact authLoop_exhaust 5 0 f (fun j hj => by simpa using h j hj)
  · intro c env mm htr hauth
    refine ⟨?_, ?_⟩
    · simp only [connect, htr, hauth, if_true]
    · simp only [connect, htr, hauth, if_true]
      simp [handle_connection_error_step]

/-- C6: when the receive loop processes a status message whose status is
`error` and whose text contains the entitlement phrase, the
`APIAccessError` text is recorded as `last_error` and the state becomes
`Error`, with no handler invocation and no exception escaping; the loop
then continues processing the remaining messages from that updated
connection; and this path neither closes the connection (the loop never
changes `websocket_set`) nor triggers reconnection (reconnection is only
triggered by transport closure, never by a processed frame). -/
theorem claim_C6_entitlement_error (handlers : List Handler)
    (c : WebSocketConnection) (m : Msg) (rest : List Msg)
    (hev : m.ev = some "status") (hst : m.status = some "error")
    (hph : containsPhrase accessPhrase (m.message.getD "") = true) :
    processMsg handlers c m =
      ({ c with
          last_error := some (apiAccessErrorText c.market (m.message.getD ""))
          state := .error }, [], none) ∧
    processMsgs handlers c (m :: rest) =
      processMsgs handlers
        { c with
            last_error := some (apiAccessErrorText c.market (m.message.getD ""))
            state := .error } rest ∧
    (∀ (handlers2 : List Handler) (c2 : WebSocketConnection)
        (frames2 : List Frame),
      (receiveFrames handlers2 c2 frames2).1.websocket_set = c2.websocket_set) ∧
    (∀ (handlers2 : List Handler) (c2 : WebSocketConnection)
        (frames2 : List Frame),
      (receiveLoop handlers2 c2 frames2 false).reconnect = false) := by
  have h1 : isStatusMsg m = true := by simp [isStatusMsg, hev]
  have h2 : handle_status c.market m =
      some (apiAccessErrorText c.market (m.message.getD "")) := by
    simp [handle_status, hst, hph]
  have ha : processMsg handlers c m =
      ({ c with
          last_error := some (apiAccessErrorText c.market (m.message.getD ""))
          state := .error }, [], none) := by
    simp only [processMsg, h1, if_true, h2]
  refine ⟨ha, ?_, ?_, ?_⟩
  · simp only [processMsgs, ha]
    simp
  · intro handlers2 c2 frames2
    exact (receiveFrames_fields handlers2 frames2 c2).2.1
  · intro handlers2 c2 frames2
    unfold receiveLoop
    cases h : (receiveFrames handlers2 c2 frames2).2.2 <;> simp [h]

/-- C6 witness: a concrete entitlement status message on a Connected
connection. -/
theorem claim_C6_witness :
    processMsg [] { WebSocketConnection.init "stocks" "e" "k" with
        state := .connected }
      ⟨some "status", some "error",
        some ("You don" ++ apos ++ "t have access to real-time data"), 0⟩ =
      ({ { WebSocketConnection.init "stocks" "e" "k" with
            state := .connected } with
          last_error := some (apiAccessErrorText
            ({ WebSocketConnection.init "stocks" "e" "k" with
              state := .connected } : WebSocketConnection).market
            ((⟨some "status", some "error",
              some ("You don" ++ apos ++ "t have access to real-time data"),
              0⟩ : Msg).message.getD ""))
          state := .error }, [], none) ∧
    processMsgs [] { WebSocketConnection.init "stocks" "e" "k" with
        state := .connected }
      [⟨some "status", some "error",
        some ("You don" ++ apos ++ "t have access to real-time data"), 0⟩,
       ⟨some "T", none, none, 7⟩] =
      processMsgs []
        { { WebSocketConnection.init "stocks" "e" "k" with
            state := .connected } with
          last_error := some (apiAccessErrorText
            ({ WebSocketConnection.init "stocks" "e" "k" with
              state := .connected } : WebSocketConnection).market
            ((⟨some "status", some "error",
              some ("You don" ++ apos ++ "t have access to real-time data"),
              0⟩ : Msg).message.getD ""))
          state := .error } [⟨some "T", none, none, 7⟩] ∧
    (∀ (handlers2 : List Handler) (c2 : WebSocketConnection)
        (frames2 : List Frame),
      (receiveFrames handlers2 c2 frames2).1.websocket_set = c2.websocket_set) ∧
    (∀ (handlers2 : List Handler) (c2 : WebSocketConnection)
        (frames2 : List Frame),
      (receiveLoop handlers2 c2 frames2 false).reconnect = false) :=
  claim_C6_entitlement_error []
    { WebSocketConnection.init "stocks" "e" "k" with state := .connected }
    ⟨some "status", some "error",
      some ("You don" ++ apos ++ "t have access to real-time data"), 0⟩
    [⟨some "T", none, none, 7⟩] rfl rfl (by decide)

/-- C7 counterexample: a connection whose `connect()` failed at the
transport handshake is in state `Error` with `websocket = None`; `close()`
on it does not set the state to `Disconnected` (the assignment sits inside
`if self.websocket:`), refuting the claim for Error connections that never
opened a transport. -/
theorem claim_C7_counterexample :
    ((connect (WebSocketConnection.init "stocks"
        "wss://socket.polygon.io/stocks" "key")
      { transport_ok := false, transport_err := "connection refused",
        frames := fun _ => [] }).1.state = ConnectionState.error) ∧
    (close (connect (WebSocketConnection.init "stocks"
        "wss://socket.polygon.io/stocks" "key")
      { transport_ok := false, transport_err := "connection refused",
        frames := fun _ => [] }).1).state ≠ ConnectionState.disconnected := by
  decide

/-- C7 (amended): for every connection whose transport object is set
(`websocket` is not None — in particular every Connected connection, and
every Error connection that reached Error after the handshake), `close()`
clears the message buffer and sets the state to `Disconnected`, leaving
`subscriptions`, `total_messages_received` and `reconnect_attempts`
unchanged; for a connection that never opened its transport, `close()`
clears the buffer but leaves the state unchanged (so an Error state
persists); and closing an already-closed connection (at most one receive
task, as the program maintains) changes nothing further. -/
theorem claim_C7_close :
    (∀ c : WebSocketConnection, c.websocket_set = true →
      (close c).message_buffer = [] ∧
      (close c).state = .disconnected ∧
      (close c).subscriptions = c.subscriptions ∧
      (close c).total_messages_received = c.total_messages_received ∧
      (close c).reconnect_attempts = c.reconnect_attempts) ∧
    (∀ c : WebSocketConnection, c.websocket_set = false →
      (close c).message_buffer = [] ∧
      (close c).state = c.state ∧
      (close c).subscriptions = c.subscriptions ∧
      (close c).total_messages_received = c.total_messages_received ∧
      (close c).reconnect_attempts = c.reconnect_attempts) ∧
    (∀ c : WebSocketConnection, c.active_receive_tasks ≤ 1 →
      close (close c) = close c) := by
  refine ⟨?_, ?_, ?_⟩
  · intro c hws
    simp [close, hws]
  · intro c hws
    simp [close, hws]
  · intro c htasks
    cases c with
    | mk market endpoint api_key websocket_set state subscriptions
        reconnect_attempts max_reconnect_delay message_buffer buffer_maxlen
        total_messages_received last_error active_receive_tasks =>
      cases websocket_set <;>
        simp_all [close]

/-- Appending a new entry for an unregistered market makes it findable. -/
theorem findConnection_append_self (l : List (String × WebSocketConnection))
    (market : String) (v : WebSocketConnection)
    (h : findConnection l market = none) :
    findConnection (l ++ [(market, v)]) market = some v := by
  induction l with
  | nil => simp [findConnection]
  | cons p rest ih =>
    obtain ⟨k, w⟩ := p
    by_cases hk : k = market
    · simp [findConnection, hk] at h
    · simp only [findConnection, List.cons_append, if_neg hk] at h ⊢
      exact ih h

/-- A successful `get_connection` leaves the market findable in the
returned registry, bound to the returned connection. -/
theorem get_connection_registers {mgr : ConnectionManager} {market : String}
    {ep key : Option String} {c1 : WebSocketConnection}
    {m1 : ConnectionManager}
    (h : get_connection mgr market ep key = .ok (c1, m1)) :
    findConnection m1.connections market = some c1 := by
  unfold get_connection at h
  cases hfind : findConnection mgr.connections market with
  | some conn =>
    rw [hfind] at h
    simp only [Except.ok.injEq, Prod.mk.injEq] at h
    obtain ⟨h1, h2⟩ := h
    rw [← h2, ← h1]
    exact hfind
  | none =>
    rw [hfind] at h
    cases key with
    | none => simp at h
    | some k =>
      by_cases hk : k = ""
      · simp [hk] at h
      · simp only [if_neg hk, Except.ok.injEq, Prod.mk.injEq] at h
        obtain ⟨h1, h2⟩ := h
        rw [← h2, h1]
        exact findConnection_append_self mgr.connections market c1 hfind

/-- C8: the registry keeps at most one connection per market — a second
`get_connection` for a market that a previous call returned yields the
identical connection and registry (no second instance is created);
`get_connection` for an unregistered market fails with the configuration
error when the API key is absent (or empty, Python falsiness); and when no
endpoint is supplied the new connection's endpoint defaults to the
market-derived address. -/
theorem claim_C8_registry :
    (∀ (mgr : ConnectionManager) (market : String)
       (ep1 key1 ep2 key2 : Option String) (c1 : WebSocketConnection)
       (m1 : ConnectionManager),
      get_connection mgr market ep1 key1 = .ok (c1, m1) →
      get_connection m1 market ep2 key2 = .ok (c1, m1)) ∧
    (∀ (mgr : ConnectionManager) (market : String) (ep : Option String),
      findConnection mgr.connections market = none →
      get_connection mgr market ep none =
        .error ("API key required for first connection to " ++ market) ∧
      get_connection mgr market ep (some "") =
        .error ("API key required for first connection to " ++ market)) ∧
    (∀ (mgr : ConnectionManager) (market key : String),
      findConnection mgr.connections market = none → key ≠ "" →
      get_connection mgr market none (some key) =
        .ok (WebSocketConnection.init market
              ("wss://socket.polygon.io/" ++ market) key,
            ⟨mgr.connections ++ [(market, WebSocketConnection.init market
              ("wss://socket.polygon.io/" ++ market) key)]⟩)) := by
  refine ⟨?_, ?_, ?_⟩
  · intro mgr market ep1 key1 ep2 key2 c1 m1 h
    have hfind := get_connection_registers h
    unfold get_connection
    rw [hfind]
  · intro mgr market ep hfind
    refine ⟨?_, ?_⟩
    · unfold get_connection
      rw [hfind]
    · unfold get_connection
      rw [hfind]
      simp
  · intro mgr market key hfind hkey
    unfold get_connection
    rw [hfind]
    simp [hkey]

/-- `unsubscribe` never changes any field other than `subscriptions`. -/
theorem unsubscribe_fields (c : WebSocketConnection) (channels : List String) :
    (unsubscribe c channels).1.state = c.state ∧
    (unsubscribe c channels).1.websocket_set = c.websocket_set ∧
    (unsubscribe c channels).1.active_receive_tasks = c.active_receive_tasks := by
  unfold unsubscribe
  by_cases h : c.state = .connected <;> simp [h]

/-- Every public operation keeps the running receive-task count at most 1. -/
theorem applyOp_tasks_le_one (c : WebSocketConnection) (op : Op)
    (h : c.active_receive_tasks ≤ 1) :
    (applyOp c op).active_receive_tasks ≤ 1 := by
  cases op with
  | connectOp env =>
    show (connect c env).1.active_receive_tasks ≤ 1
    unfold connect
    cases henv : env.transport_ok with
    | false => simpa [handle_connection_error_step] using h
    | true =>
      cases hauth : authenticate env.frames with
      | success =>
        simp only [if_true]
        by_cases hsub : c.subscriptions = ∅ <;>
          by_cases ht : 0 < c.active_receive_tasks <;>
            simp [hsub, subscribe, ht] <;> omega
      | authFailed mm => simpa [handle_connection_error_step] using h
      | noResponse => simpa [handle_connection_error_step] using h
  | closeOp =>
    show (close c).active_receive_tasks ≤ 1
    unfold close
    by_cases hws : c.websocket_set <;>
      by_cases ht : 0 < c.active_receive_tasks <;>
        simp [hws, ht] <;> omega
  | subscribeOp channels =>
    show (subscribe c channels).1.active_receive_tasks ≤ 1
    rw [(subscribe_fields c channels).2.2.2.2.2.2.2.2.2]
    exact h
  | unsubscribeOp channels =>
    show (unsubscribe c channels).1.active_receive_tasks ≤ 1
    rw [(unsubscribe_fields c channels).2.2]
    exact h
  | receiveOp handlers frames closed =>
    show (receiveLoop handlers c frames closed).conn.active_receive_tasks ≤ 1
    rw [receiveLoop_conn]
    rw [(receiveFrames_fields handlers frames c).2.2.2.2.2.2]
    exact h

/-- C9: each connection runs at most one receive loop at any time.  Starting
from a fresh connection, any sequence of public operations (connect against
any environment, close, subscribe, unsubscribe, receive-loop runs) leaves at
most one running receive task; and on every successful `connect()` the
previous still-running receive task is cancelled and awaited before the
single new one starts (the count becomes exactly the old count with any
running task removed, plus one). -/
theorem claim_C9_single_receive_loop :
    (∀ (market endpoint key : String) (ops : List Op),
      (runOps (WebSocketConnection.init market endpoint key)
        ops).active_receive_tasks ≤ 1) ∧
    (∀ (c : WebSocketConnection) (env : ConnectEnv),
      env.transport_ok = true → authenticate env.frames = .success →
      (connect c env).1.active_receive_tasks =
        (if 0 < c.active_receive_tasks then c.active_receive_tasks - 1
         else c.active_receive_tasks) + 1) := by
  constructor
  · intro market endpoint key ops
    have hgen : ∀ (ops : List Op) (c : WebSocketConnection),
        c.active_receive_tasks ≤ 1 →
        (runOps c ops).active_receive_tasks ≤ 1 := by
      intro ops
      induction ops with
      | nil => intro c h; exact h
      | cons op rest ih =>
        intro c h
        exact ih (applyOp c op) (applyOp_tasks_le_one c op h)
    exact hgen ops (WebSocketConnection.init market endpoint key)
      (by simp [WebSocketConnection.init])
  · intro c env htr hauth
    exact (connect_success_state c env htr hauth).2.2.2.2.2

/-- `runHandlers` on a handler list whose prefix returns normally and whose
next handler raises: every handler up to and including the raising one is
invoked on the message, none after it, and the exception propagates. -/
theorem runHandlers_split (m : Msg) (h : Handler) (hs2 : List Handler)
    (e : String) (hraise : h m = some e) :
    ∀ (hs1 : List Handler) (i : Nat), (∀ f ∈ hs1, f m = none) →
    runHandlers i (hs1 ++ h :: hs2) m =
      ((List.range (hs1.length + 1)).map (fun j => (i + j, m)), some e) := by
  intro hs1
  induction hs1 with
  | nil =>
    intro i _
    simp [runHandlers, hraise, List.range_succ]
  | cons f t ih =>
    intro i hpure
    have hf : f m = none := hpure f (List.mem_cons_self f t)
    have htail : runHandlers (i + 1) (t ++ (h :: hs2)) m =
        ((List.range (t.length + 1)).map (fun j => (i + 1 + j, m)), some e) :=
      ih (i + 1) (fun g hg => hpure g (List.mem_cons_of_mem f hg))
    have hlist : (i, m) :: (List.range (t.length + 1)).map
        (fun j => ((i + 1 + j, m) : Nat × Msg)) =
        (List.range (t.length + 1 + 1)).map (fun j => (i + j, m)) := by
      conv_rhs => rw [List.range_succ_eq_map]
      rw [List.map_cons, List.map_map]
      congr 1
      apply List.map_congr_left
      intro a _
      simp only [Function.comp_apply, Prod.mk.injEq]
      exact ⟨by omega, trivial⟩
    have hstep : runHandlers i ((f :: t) ++ h :: hs2) m =
        ((i, m) :: (runHandlers (i + 1) (t ++ h :: hs2) m).1,
         (runHandlers (i + 1) (t ++ h :: hs2) m).2) := by
      simp only [List.cons_append, runHandlers, hf]
      rfl
    rw [hstep, htail]
    simp [hlist]

/-- C10: if a registered handler raises while the receive loop is delivering
a data message, the loop terminates with that exception uncaught: the final
connection has the triggering message already appended to the buffer and
counted (its state still Connected), no reconnection is triggered even if
the stream later closes, and no later message of the same frame or of later
frames is delivered to any handler — the delivery trace is exactly the
handlers up to and including the raising one, each invoked on the
triggering message only. -/
theorem claim_C10_handler_exception (c : WebSocketConnection) (m : Msg)
    (post : List Msg) (fs : List Frame) (closed : Bool)
    (hs1 : List Handler) (h : Handler) (hs2 : List Handler) (e : String)
    (hc : c.state = .connected) (hm : isStatusMsg m = false)
    (hpure : ∀ f ∈ hs1, f m = none) (hraise : h m = some e) :
    (receiveLoop (hs1 ++ h :: hs2) c (Frame.array (m :: post) :: fs)
        closed).err = some e ∧
    (receiveLoop (hs1 ++ h :: hs2) c (Frame.array (m :: post) :: fs)
        closed).conn =
      { c with
          message_buffer := dequeAppend c.buffer_maxlen c.message_buffer m
          total_messages_received := c.total_messages_received + 1 } ∧
    (receiveLoop (hs1 ++ h :: hs2) c (Frame.array (m :: post) :: fs)
        closed).conn.state = .connected ∧
    (receiveLoop (hs1 ++ h :: hs2) c (Frame.array (m :: post) :: fs)
        closed).reconnect = false ∧
    (receiveLoop (hs1 ++ h :: hs2) c (Frame.array (m :: post) :: fs)
        closed).delivered =
      (List.range (hs1.length + 1)).map (fun j => (j, m)) := by
  have hrh : runHandlers 0 (hs1 ++ h :: hs2) m =
      ((List.range (hs1.length + 1)).map (fun j => (0 + j, m)), some e) :=
    runHandlers_split m h hs2 e hraise hs1 0 hpure
  have hpm : processMsg (hs1 ++ h :: hs2) c m =
      ({ c with
          message_buffer := dequeAppend c.buffer_maxlen c.message_buffer m
          total_messages_received := c.total_messages_received + 1 },
        (List.range (hs1.length + 1)).map (fun j => (0 + j, m)), some e) := by
    simp only [processMsg, hm, Bool.false_eq_true, if_false, hrh]
  have hpms : processMsgs (hs1 ++ h :: hs2) c (m :: post) =
      ({ c with
          message_buffer := dequeAppend c.buffer_maxlen c.message_buffer m
          total_messages_received := c.total_messages_received + 1 },
        (List.range (hs1.length + 1)).map (fun j => (0 + j, m)), some e) := by
    simp only [processMsgs, hpm]
  have hrf : receiveFrames (hs1 ++ h :: hs2) c (Frame.array (m :: post) :: fs) =
      ({ c with
          message_buffer := dequeAppend c.buffer_maxlen c.message_buffer m
          total_messages_received := c.total_messages_received + 1 },
        (List.range (hs1.length + 1)).map (fun j => (0 + j, m)), some e) := by
    simp only [receiveFrames, hpms]
  have hmap : (List.range (hs1.length + 1)).map (fun j => ((0 + j, m) : Nat × Msg)) =
      (List.range (hs1.length + 1)).map (fun j => (j, m)) := by
    apply List.map_congr_left
    intro a _
    simp
  refine ⟨?_, ?_, ?_, ?_, ?_⟩
  · simp only [receiveLoop, hrf]
  · simp only [receiveLoop, hrf]
  · simp only [receiveLoop, hrf, hc]
  · simp only [receiveLoop, hrf]
  · simp only [receiveLoop, hrf, hmap]

/-- C10 witness: one raising handler, a second data message in the frame and
a later frame, with the stream even closing afterwards — nothing past the
triggering message is processed. -/
theorem claim_C10_witness :
    (receiveLoop [fun _ => some "handler boom"]
        { WebSocketConnection.init "stocks" "e" "k" with state := .connected }
        [Frame.array [⟨some "T", none, none, 1⟩, ⟨some "T", none, none, 2⟩],
         Frame.invalid] true).err = some "handler boom" ∧
    (receiveLoop [fun _ => some "handler boom"]
        { WebSocketConnection.init "stocks" "e" "k" with state := .connected }
        [Frame.array [⟨some "T", none, none, 1⟩, ⟨some "T", none, none, 2⟩],
         Frame.invalid] true).conn =
      { ({ WebSocketConnection.init "stocks" "e" "k" with
            state := .connected } : WebSocketConnection) with
          message_buffer := dequeAppend
            ({ WebSocketConnection.init "stocks" "e" "k" with
              state := .connected } : WebSocketConnection).buffer_maxlen
            ({ WebSocketConnection.init "stocks" "e" "k" with
              state := .connected } : WebSocketConnection).message_buffer
            ⟨some "T", none, none, 1⟩
          total_messages_received :=
            ({ WebSocketConnection.init "stocks" "e" "k" with
              state := .connected } : WebSocketConnection).total_messages_received
            + 1 } ∧
    (receiveLoop [fun _ => some "handler boom"]
        { WebSocketConnection.init "stocks" "e" "k" with state := .connected }
        [Frame.array [⟨some "T", none, none, 1⟩, ⟨some "T", none, none, 2⟩],
         Frame.invalid] true).conn.state = .connected ∧
    (receiveLoop [fun _ => some "handler boom"]
        { WebSocketConnection.init "stocks" "e" "k" with state := .connected }
        [Frame.array [⟨some "T", none, none, 1⟩, ⟨some "T", none, none, 2⟩],
         Frame.invalid] true).reconnect = false ∧
    (receiveLoop [fun _ => some "handler boom"]
        { WebSocketConnection.init "stocks" "e" "k" with state := .connected }
        [Frame.array [⟨some "T", none, none, 1⟩, ⟨some "T", none, none, 2⟩],
         Frame.invalid] true).delivered =
      (List.range 1).map (fun j => (j, ⟨some "T", none, none, 1⟩)) :=
  claim_C10_handler_exception
    { WebSocketConnection.init "stocks" "e" "k" with state := .connected }
    ⟨some "T", none, none, 1⟩ [⟨some "T", none, none, 2⟩] [Frame.invalid] true
    [] (fun _ => some "handler boom") [] "handler boom"
    rfl rfl (by simp) rfl

end MCPPolygon
